import Mathlib

/-!
# VoiceFlow task tracker: the application state of `frontend/src/App.jsx`

A shallow embedding of the `App` component: its eleven `useState` cells become one
record `AppState`, every handler becomes a function on that record, and every call
that a handler awaits (`taskService.*`) becomes an argument carrying the outcome of
the call (`Except`: `.error` is a rejected promise, `.ok` a resolved one).  Each
handler also returns the list of requests and user-visible messages it issued, in
order, so that statements such as "a refresh is triggered" can be read off the list.

JavaScript strings are modelled by `String` and `undefined`/`null` by `none`; a test
`if (x)` on an optional string is a match on `some x` followed by `x ≠ ""`, since the
empty string is falsy.
`String.prototype.toLowerCase` is a parameter `toLowerCase : String → String` of the
definitions that use it; `asciiLower` is one concrete instance.
-/

namespace VoiceFlow

/-! ## Data model -/

/-- A row of the `tasks` table as the client holds it (`initDatabase.js`). -/
structure Task where
  id : Nat
  title : String
  description : Option String
  priority : String
  status : String
  due_date : Option String
  created_at : String
  updated_at : String
deriving DecidableEq, Repr

/-- The task-shaped payload submitted by the task form and by the voice review. -/
structure TaskData where
  title : String
  description : Option String
  priority : Option String
  status : Option String
  due_date : Option String
deriving DecidableEq, Repr

/-- The `filters` object: every field may be missing. -/
structure Filters where
  search : Option String
  status : Option String
  priority : Option String
deriving DecidableEq, Repr

/-- The object `{}`: the initial value of `filters`. -/
def Filters.empty : Filters := ⟨none, none, none⟩

/-- The candidate produced by the parsing collaborator; every field is best-effort. -/
structure ParsedCandidate where
  title : Option String
  description : Option String
  priority : Option String
  due_date : Option String
deriving DecidableEq, Repr

/-- The value held in `voiceData`: `{ transcript, parsed }`. -/
structure VoiceData where
  transcript : String
  parsed : Option ParsedCandidate
deriving DecidableEq, Repr

inductive ViewMode where
  | kanban
  | list
deriving DecidableEq, Repr

/-- The `useState` cells of `App` (lines 13-23). -/
structure AppState where
  tasks : List Task
  filteredTasks : List Task
  viewMode : ViewMode
  showTaskForm : Bool
  showVoiceInput : Bool
  showVoiceReview : Bool
  editingTask : Option Task
  voiceData : Option VoiceData
  filters : Filters
  loading : Bool
  error : Option String
deriving DecidableEq, Repr

/-- The initial values passed to `useState`. -/
def AppState.init : AppState :=
  { tasks := [], filteredTasks := [], viewMode := .kanban, showTaskForm := false,
    showVoiceInput := false, showVoiceReview := false, editingTask := none,
    voiceData := none, filters := Filters.empty, loading := true, error := none }

/-! ## Collaborators -/

/-- The resolved value of `taskService.getTasks()`; `data` may be missing. -/
structure GetTasksResponse where
  data : Option (List Task)
deriving DecidableEq, Repr

/-- The object `response.data` of a parse response. -/
structure ParseData where
  parsed : Option ParsedCandidate
deriving DecidableEq, Repr

/-- The resolved value of `taskService.parseVoiceTranscript(transcript)`. -/
structure ParseResponse where
  data : Option ParseData
deriving DecidableEq, Repr

/-- The second argument of `taskService.updateTask`: the form data (`handleUpdateTask`)
or a whole task object (`handleTaskMove`). -/
inductive Payload where
  | form (taskData : TaskData)
  | task (t : Task)
deriving DecidableEq, Repr

/-- What a handler does that is visible outside the state: requests to the task service,
`console.error` and `alert`. -/
inductive Effect where
  | getTasks
  | createTask (taskData : TaskData)
  | updateTask (id : Nat) (payload : Payload)
  | deleteTask (id : Nat)
  | parseVoiceTranscript (transcript : String)
  | consoleError (label : String)
  | alert (message : String)
deriving DecidableEq, Repr

/-! ## Strings -/

/-- The method `s.includes(t)`: `t` occurs in `s` as a contiguous run of characters. -/
def includes (s t : String) : Bool := decide (t.data <:+: s.data)

/-- Lower-casing of the letters `A`-`Z`, an instance of the parameter `toLowerCase`. -/
def asciiLower (s : String) : String := ⟨s.data.map Char.toLower⟩

/-! ## The filter engine (lines 49-72) -/

/-- The local variable `filtered` of `applyFilters` at the point where it is stored. -/
def applyFilters.filtered (toLowerCase : String → String) (tasks : List Task)
    (filters : Filters) : List Task :=
  let filtered := tasks
  -- Apply search filter
  let filtered :=
    match filters.search with
    | some search =>
      if search ≠ "" then
        let searchLower := toLowerCase search
        filtered.filter fun task =>
          includes (toLowerCase task.title) searchLower ||
            (match task.description with
             | some description =>
               decide (description ≠ "") && includes (toLowerCase description) searchLower
             | none => false)
      else filtered
    | none => filtered
  -- Apply status filter
  let filtered :=
    match filters.status with
    | some status =>
      if status ≠ "" then filtered.filter fun task => decide (task.status = status)
      else filtered
    | none => filtered
  -- Apply priority filter
  let filtered :=
    match filters.priority with
    | some priority =>
      if priority ≠ "" then filtered.filter fun task => decide (task.priority = priority)
      else filtered
    | none => filtered
  filtered

/-- The function `applyFilters`: recompute `filteredTasks` from `tasks` and `filters`. -/
def applyFilters (toLowerCase : String → String) (s : AppState) : AppState :=
  { s with filteredTasks := applyFilters.filtered toLowerCase s.tasks s.filters }

/-! ## The task store (lines 35-47) -/

/-- The function `loadTasks`; `fetch` is the outcome of `taskService.getTasks()`. -/
def loadTasks (fetch : Except String GetTasksResponse) (s : AppState) :
    AppState × List Effect :=
  let s := { s with loading := true }
  let s := { s with error := none }
  match fetch with
  | .ok response =>
    let s := { s with tasks := response.data.getD [] }
    ({ s with loading := false }, [.getTasks])
  | .error _ =>
    let s := { s with error := some "Failed to load tasks. Please try again." }
    ({ s with loading := false }, [.getTasks, .consoleError "Error loading tasks:"])

/-! ## Mutations (lines 74-119) -/

/-- The function `handleCreateTask`; `create` is the outcome of `taskService.createTask`,
`fetch` the outcome of the fetch inside `loadTasks` (used only when it is reached). -/
def handleCreateTask (taskData : TaskData) (create : Except String Unit)
    (fetch : Except String GetTasksResponse) (s : AppState) : AppState × List Effect :=
  match create with
  | .ok _ =>
    let r := loadTasks fetch s
    let s := { r.1 with showTaskForm := false }
    ({ s with editingTask := none }, .createTask taskData :: r.2)
  | .error _ =>
    (s, [.createTask taskData, .consoleError "Error creating task:",
         .alert "Failed to create task. Please try again."])

/-- The function `handleUpdateTask`.  Reading `editingTask.id` while `editingTask` is
`null` throws inside the `try`, before any request is made. -/
def handleUpdateTask (taskData : TaskData) (update : Except String Unit)
    (fetch : Except String GetTasksResponse) (s : AppState) : AppState × List Effect :=
  match s.editingTask with
  | some editingTask =>
    match update with
    | .ok _ =>
      let r := loadTasks fetch s
      let s := { r.1 with showTaskForm := false }
      ({ s with editingTask := none }, .updateTask editingTask.id (.form taskData) :: r.2)
    | .error _ =>
      (s, [.updateTask editingTask.id (.form taskData), .consoleError "Error updating task:",
           .alert "Failed to update task. Please try again."])
  | none =>
    (s, [.consoleError "Error updating task:", .alert "Failed to update task. Please try again."])

/-- The function `handleDeleteTask`. -/
def handleDeleteTask (taskId : Nat) (delete : Except String Unit)
    (fetch : Except String GetTasksResponse) (s : AppState) : AppState × List Effect :=
  match delete with
  | .ok _ =>
    let r := loadTasks fetch s
    (r.1, .deleteTask taskId :: r.2)
  | .error _ =>
    (s, [.deleteTask taskId, .consoleError "Error deleting task:",
         .alert "Failed to delete task. Please try again."])

/-- The function `handleTaskMove`: `tasks.find(t => t.id === taskId)`, then an update
carrying `{ ...task, status: newStatus }`, then a refresh. -/
def handleTaskMove (taskId : Nat) (newStatus : String) (update : Except String Unit)
    (fetch : Except String GetTasksResponse) (s : AppState) : AppState × List Effect :=
  match s.tasks.find? (fun t => decide (t.id = taskId)) with
  | some task =>
    match update with
    | .ok _ =>
      let r := loadTasks fetch s
      (r.1, .updateTask taskId (.task { task with status := newStatus }) :: r.2)
    | .error _ =>
      (s, [.updateTask taskId (.task { task with status := newStatus }),
           .consoleError "Error moving task:",
           .alert "Failed to update task status. Please try again."])
  | none => (s, [])

/-- The function `handleTaskClick`. -/
def handleTaskClick (task : Task) (s : AppState) : AppState :=
  let s := { s with editingTask := some task }
  { s with showTaskForm := true }

/-! ## The voice workflow (lines 126-156) -/

/-- The part of `handleVoiceTranscript` that runs once the awaited parse request has
settled with `parse`.  The object literal `{ transcript, parsed: response.data.parsed }`
is evaluated before `setVoiceData` is called, so a response without `data` throws before
any state is written. -/
def handleVoiceTranscript.resume (transcript : String) (parse : Except String ParseResponse)
    (s : AppState) : AppState × List Effect :=
  match parse with
  | .ok response =>
    match response.data with
    | some data =>
      let s := { s with voiceData := some { transcript := transcript, parsed := data.parsed } }
      let s := { s with showVoiceInput := false }
      ({ s with showVoiceReview := true }, [])
    | none =>
      (s, [.consoleError "Error parsing transcript:",
           .alert "Failed to parse voice input. Please try again."])
  | .error _ =>
    (s, [.consoleError "Error parsing transcript:",
         .alert "Failed to parse voice input. Please try again."])

/-- The function `handleVoiceTranscript`, run from the call to its end: the parse request
is issued, then the rest runs on the state as it is (no other handler in between). -/
def handleVoiceTranscript (transcript : String) (parse : Except String ParseResponse)
    (s : AppState) : AppState × List Effect :=
  let r := handleVoiceTranscript.resume transcript parse s
  (r.1, .parseVoiceTranscript transcript :: r.2)

/-- The function `handleVoiceConfirm`. -/
def handleVoiceConfirm (taskData : TaskData) (create : Except String Unit)
    (fetch : Except String GetTasksResponse) (s : AppState) : AppState × List Effect :=
  match create with
  | .ok _ =>
    let r := loadTasks fetch s
    let s := { r.1 with showVoiceReview := false }
    ({ s with voiceData := none }, .createTask taskData :: r.2)
  | .error _ =>
    (s, [.createTask taskData, .consoleError "Error creating voice task:",
         .alert "Failed to create task. Please try again."])

/-- The function `handleVoiceCancel`. -/
def handleVoiceCancel (s : AppState) : AppState :=
  let s := { s with showVoiceReview := false }
  { s with voiceData := none }

/-- The function `handleFilterChange`. -/
def handleFilterChange (newFilters : Filters) (s : AppState) : AppState :=
  { s with filters := newFilters }

/-! ## The voice workflow as a step function

`handleVoiceTranscript` suspends at its `await`; other handlers may run before it
resumes.  `Sys` adds to the state the parse requests that are in flight. -/

/-- The application state together with the transcripts whose parse request has been
issued and has not settled yet. -/
structure Sys where
  app : AppState
  parsing : List String
deriving DecidableEq, Repr

def Sys.init : Sys := { app := AppState.init, parsing := [] }

/-- What can happen to the voice workflow. -/
inductive Event where
  -- the header button "Voice Input" (line 230)
  | openVoiceInput
  -- the close button of the voice-input modal (line 270)
  | closeVoiceInput
  -- the component VoiceInput calls onTranscriptReady (line 278)
  | transcriptReady (transcript : String)
  -- the parse request issued for the transcript settles
  | parseSettled (transcript : String) (parse : Except String ParseResponse)
  -- the review surface calls onCancel (line 290)
  | voiceCancel
  -- the review surface calls onConfirm (line 289); the handler runs to its end
  | voiceConfirm (taskData : TaskData) (create : Except String Unit)
      (fetch : Except String GetTasksResponse)

/-- One step of the workflow; `none` when the event cannot happen in this state (the
surface that raises it is not rendered, or no such request is in flight). -/
def step (s : Sys) : Event → Option Sys
  | .openVoiceInput => some { s with app := { s.app with showVoiceInput := true } }
  | .closeVoiceInput =>
    if s.app.showVoiceInput then some { s with app := { s.app with showVoiceInput := false } }
    else none
  | .transcriptReady transcript =>
    if s.app.showVoiceInput then some { s with parsing := s.parsing ++ [transcript] }
    else none
  | .parseSettled transcript parse =>
    if transcript ∈ s.parsing then
      some { app := (handleVoiceTranscript.resume transcript parse s.app).1,
             parsing := s.parsing.erase transcript }
    else none
  | .voiceCancel =>
    if s.app.showVoiceReview && s.app.voiceData.isSome then
      some { s with app := handleVoiceCancel s.app }
    else none
  | .voiceConfirm taskData create fetch =>
    if s.app.showVoiceReview && s.app.voiceData.isSome then
      some { s with app := (handleVoiceConfirm taskData create fetch s.app).1 }
    else none

/-- Run a sequence of events from a state; `none` as soon as one of them cannot happen. -/
def run (s : Sys) : List Event → Option Sys
  | [] => some s
  | e :: es => (step s e).bind fun t => run t es

/-! ## The matching rule in the words of the specification -/

/-- The matching rule as the specification states it: an absent field imposes no
constraint; the search text, lower-cased, occurs in the lower-cased title, or the
description is present and the search text occurs in the lower-cased description;
status and priority are compared for equality; all three must hold. -/
def specMatches (toLowerCase : String → String) (C : Filters) (task : Task) : Bool :=
  (match C.search with
   | none => true
   | some search =>
     includes (toLowerCase task.title) (toLowerCase search) ||
       (match task.description with
        | some description => includes (toLowerCase description) (toLowerCase search)
        | none => false)) &&
  (match C.status with
   | none => true
   | some status => decide (task.status = status)) &&
  (match C.priority with
   | none => true
   | some priority => decide (task.priority = priority))

/-- The matching rule with one change: a status or priority criterion that is the empty
string imposes no constraint either. -/
def specMatchesOrEmpty (toLowerCase : String → String) (C : Filters) (task : Task) : Bool :=
  (match C.search with
   | none => true
   | some search =>
     includes (toLowerCase task.title) (toLowerCase search) ||
       (match task.description with
        | some description => includes (toLowerCase description) (toLowerCase search)
        | none => false)) &&
  (match C.status with
   | none => true
   | some status => decide (status = "") || decide (task.status = status)) &&
  (match C.priority with
   | none => true
   | some priority => decide (priority = "") || decide (task.priority = priority))

/-- Scenario 1 of the specification: the task "Write report". -/
def writeReport : Task :=
  { id := 1, title := "Write report", description := none, priority := "high",
    status := "todo", due_date := none, created_at := "", updated_at := "" }

/-- A task without a description. -/
def buyMilk : Task :=
  { id := 2, title := "Buy milk", description := none, priority := "medium",
    status := "todo", due_date := none, created_at := "", updated_at := "" }

/-- A store holding "Write report", shown with the status selector reset to `""`. -/
def stateStatusEmpty : AppState :=
  { AppState.init with tasks := [writeReport], filters := ⟨none, some "", none⟩ }

/-- A store of two tasks under the criteria `{ search: "REPORT", status: "todo" }`. -/
def stateSearchReport : AppState :=
  { AppState.init with
    tasks := [buyMilk, writeReport], filters := ⟨some "REPORT", some "todo", none⟩ }

/-- A loaded store of two tasks, no modal open. -/
def stateLoaded : AppState :=
  { AppState.init with
    tasks := [buyMilk, writeReport], filteredTasks := [buyMilk, writeReport], loading := false }

/-- The store of `stateLoaded` while "Write report" is open in the task form. -/
def stateEditing : AppState :=
  { stateLoaded with showTaskForm := true, editingTask := some writeReport }

/-- The voice-input modal is open and nothing has been parsed yet (Capturing). -/
def stateCapturing : AppState :=
  { stateLoaded with showVoiceInput := true }

/-- Scenario 3 of the specification: the candidate parsed from the transcript. -/
def callMomCandidate : ParsedCandidate :=
  { title := some "Call mom", description := none, priority := none,
    due_date := some "tomorrow" }

/-- The review surface is shown for a parsed transcript (Reviewing). -/
def stateReviewing : AppState :=
  { stateLoaded with
    showVoiceReview := true,
    voiceData := some { transcript := "remind me to call mom tomorrow",
                        parsed := some callMomCandidate } }

/-- Task data whose title the user has cleared in the review surface. -/
def emptyTitleData : TaskData :=
  { title := "", description := none, priority := some "low", status := none,
    due_date := some "tomorrow" }

/-- Task data with a title. -/
def callMomData : TaskData :=
  { title := "Call mom", description := none, priority := some "low", status := none,
    due_date := some "tomorrow" }

/-- A fetch that resolves with the store of `stateLoaded` plus nothing new. -/
def fetchLoaded : Except String GetTasksResponse :=
  .ok { data := some [buyMilk, writeReport] }

/-- The parse response of Scenario 3. -/
def callMomResponse : Except String ParseResponse :=
  .ok { data := some { parsed := some callMomCandidate } }

/-- The voice-input modal is open and one parse request is in flight. -/
def sysParsing : Sys :=
  { app := stateCapturing, parsing := ["remind me to call mom tomorrow"] }

/-- The user opens voice input, a transcript is handed over, the user closes the modal,
and then the parse request resolves. -/
def closeThenResolve : List Event :=
  [.openVoiceInput, .transcriptReady "remind me to call mom tomorrow", .closeVoiceInput,
   .parseSettled "remind me to call mom tomorrow" callMomResponse]

/-- Two transcripts are handed over while the modal is open; the first parse resolves and
opens the review, the user cancels the review, and then the second parse resolves. -/
def cancelThenResolve : List Event :=
  [.openVoiceInput, .transcriptReady "buy milk", .transcriptReady "remind me to call mom tomorrow",
   .parseSettled "buy milk" (.ok { data := some { parsed := none } }), .voiceCancel,
   .parseSettled "remind me to call mom tomorrow" callMomResponse]

/-- A store in which two entries carry the id 1. -/
def stateDuplicateId : AppState :=
  { stateLoaded with tasks := [buyMilk, writeReport, { buyMilk with id := 1 }] }

/-! ## Lemmas on strings -/

theorem includes_empty_right (s : String) : includes s "" = true := by
  simp [includes]

theorem includes_empty_left (t : String) : includes "" t = true ↔ t = "" := by
  cases t with
  | mk d =>
    simp [includes, String.ext_iff]

theorem asciiLower_empty : asciiLower "" = "" := rfl

theorem asciiLower_eq_empty (s : String) (h : asciiLower s = "") : s = "" := by
  cases s with
  | mk d =>
    have h2 : d.map Char.toLower = [] := congrArg String.data h
    have h3 : d = [] := List.map_eq_nil_iff.mp h2
    subst h3
    rfl

/-! ## The filter engine -/

/-- The three passes of `applyFilters` are one pass with the conjunction of the three
tests. -/
theorem filtered_eq_filter (toLowerCase : String → String)
    (hempty : toLowerCase "" = "") (hne : ∀ x, toLowerCase x = "" → x = "")
    (tasks : List Task) (C : Filters) :
    applyFilters.filtered toLowerCase tasks C
      = tasks.filter (specMatchesOrEmpty toLowerCase C) := by
  obtain ⟨search, status, priority⟩ := C
  have hdesc : ∀ (d x : String), x ≠ "" →
      (decide (d ≠ "") && includes (toLowerCase d) (toLowerCase x))
        = includes (toLowerCase d) (toLowerCase x) := by
    intro d x hx
    by_cases hd : d = ""
    · subst hd
      have : includes (toLowerCase "") (toLowerCase x) = false := by
        rw [hempty]
        cases hc : includes "" (toLowerCase x) with
        | false => rfl
        | true => exact absurd (hne x ((includes_empty_left _).mp hc)) hx
      simp [this]
    · simp [hd]
  have hfilter : ∀ (p q : Task → Bool) (l : List Task), (∀ t, p t = q t) →
      l.filter p = l.filter q := by
    intro p q l h
    have : p = q := funext h
    rw [this]
  -- each pass is a filter
  have hS : ∀ l : List Task,
      (match search with
        | some x =>
          if x ≠ "" then
            l.filter fun task =>
              includes (toLowerCase task.title) (toLowerCase x) ||
                (match task.description with
                 | some d => decide (d ≠ "") && includes (toLowerCase d) (toLowerCase x)
                 | none => false)
          else l
        | none => l)
      = l.filter (fun task =>
          match search with
          | none => true
          | some x =>
            includes (toLowerCase task.title) (toLowerCase x) ||
              (match task.description with
               | some d => includes (toLowerCase d) (toLowerCase x)
               | none => false)) := by
    intro l
    rcases search with _ | x
    · simp
    · by_cases hx : x = ""
      · subst hx
        simp [hempty, includes_empty_right]
      · simp only [ne_eq, hx, not_false_eq_true, if_true]
        apply hfilter
        intro t
        rcases t.description with _ | d
        · rfl
        · simp only [hdesc d x hx]
  have hE : ∀ (c : Option String) (f : Task → String) (l : List Task),
      (match c with
        | some x => if x ≠ "" then l.filter fun task => decide (f task = x) else l
        | none => l)
      = l.filter (fun task =>
          match c with
          | none => true
          | some x => decide (x = "") || decide (f task = x)) := by
    intro c f l
    rcases c with _ | x
    · simp
    · by_cases hx : x = ""
      · subst hx
        simp
      · simp [hx]
  simp only [applyFilters.filtered]
  rw [hS, hE status (fun t => t.status), hE priority (fun t => t.priority),
    List.filter_filter, List.filter_filter]
  apply hfilter
  intro t
  simp only [specMatchesOrEmpty]
  generalize (match search with
          | none => true
          | some x =>
            includes (toLowerCase t.title) (toLowerCase x) ||
              (match t.description with
               | some d => includes (toLowerCase d) (toLowerCase x)
               | none => false)) = a
  rcases status with _ | y <;> rcases priority with _ | z <;> cases a <;>
    simp [Bool.and_comm]

/-- One pass of `applyFilters` keeps a sublist of what it is given. -/
theorem pass_sublist (c : Option String) (p : String → Task → Bool) (l : List Task) :
    List.Sublist
      (match c with
        | some x => if x ≠ "" then l.filter (p x) else l
        | none => l) l := by
  rcases c with _ | x
  · exact List.Sublist.refl l
  · by_cases hx : x = ""
    · simp [hx]
    · simp only [ne_eq, hx, not_false_eq_true, if_true]
      exact List.filter_sublist l

/-- The result of `applyFilters` is a sublist of the result of its first pass. -/
theorem filtered_sublist_search (toLowerCase : String → String) (tasks : List Task)
    (search : String) (hs : search ≠ "") (status priority : Option String) :
    List.Sublist (applyFilters.filtered toLowerCase tasks ⟨some search, status, priority⟩)
      (tasks.filter fun task =>
        includes (toLowerCase task.title) (toLowerCase search) ||
          (match task.description with
           | some description =>
             decide (description ≠ "") && includes (toLowerCase description) (toLowerCase search)
           | none => false)) := by
  simp only [applyFilters.filtered, ne_eq, hs, not_false_eq_true, if_true]
  exact (pass_sublist priority (fun x task => decide (task.priority = x)) _).trans
    (pass_sublist status (fun x task => decide (task.status = x)) _)

/-- C1 (as amended): for every task list and criteria, `applyFilters` produces exactly the
tasks that satisfy all constraints together, where a status or priority criterion that is
absent or the empty string imposes no constraint.  The lower-casing function is any
function that maps the empty string, and only it, to the empty string. -/
theorem C1_applyFilters_exact (toLowerCase : String → String)
    (hempty : toLowerCase "" = "") (hne : ∀ x, toLowerCase x = "" → x = "")
    (s : AppState) :
    (applyFilters toLowerCase s).filteredTasks
      = s.tasks.filter (specMatchesOrEmpty toLowerCase s.filters) :=
  filtered_eq_filter toLowerCase hempty hne s.tasks s.filters

theorem C1_applyFilters_exact_witness :
    asciiLower "" = "" ∧ (∀ x, asciiLower x = "" → x = "") ∧
    (applyFilters asciiLower stateSearchReport).filteredTasks
      = stateSearchReport.tasks.filter
          (specMatchesOrEmpty asciiLower stateSearchReport.filters) :=
  ⟨asciiLower_empty, asciiLower_eq_empty,
    C1_applyFilters_exact asciiLower asciiLower_empty asciiLower_eq_empty stateSearchReport⟩

/-- C1 (as stated) fails: with the criteria `{ status: "" }` the status field is present
and differs from the status `"todo"` of the task, so the stated rule keeps nothing, while
`applyFilters` skips the status pass and keeps the task. -/
theorem C1_status_empty_string_counterexample :
    (applyFilters asciiLower stateStatusEmpty).filteredTasks = [writeReport] ∧
    stateStatusEmpty.tasks.filter (specMatches asciiLower stateStatusEmpty.filters) = [] := by
  decide

/-- C2: for every task list and criteria, the result of `applyFilters` is a subsequence of
the task list: it holds only tasks of the list, in the order of the list. -/
theorem C2_applyFilters_sublist (toLowerCase : String → String) (s : AppState) :
    List.Sublist (applyFilters toLowerCase s).filteredTasks s.tasks ∧
    ∀ t ∈ (applyFilters toLowerCase s).filteredTasks, t ∈ s.tasks := by
  have hsub : List.Sublist (applyFilters toLowerCase s).filteredTasks s.tasks := by
    simp only [applyFilters, applyFilters.filtered]
    exact (pass_sublist s.filters.priority (fun x task => decide (task.priority = x)) _).trans
      ((pass_sublist s.filters.status (fun x task => decide (task.status = x)) _).trans
        (pass_sublist s.filters.search
          (fun x task =>
            includes (toLowerCase task.title) (toLowerCase x) ||
              (match task.description with
               | some description =>
                 decide (description ≠ "") &&
                   includes (toLowerCase description) (toLowerCase x)
               | none => false)) _))
  exact ⟨hsub, fun t ht => hsub.subset ht⟩

/-- C3: for every task list, `applyFilters` with the empty criteria yields the list
unchanged in content and order. -/
theorem C3_applyFilters_empty_criteria (toLowerCase : String → String) (s : AppState) :
    (applyFilters toLowerCase { s with filters := Filters.empty }).filteredTasks = s.tasks :=
  rfl

/-- C4: a task without a description is excluded by every non-empty search text that does
not occur, after lower-casing, in its title, whatever the list and the other criteria. -/
theorem C4_no_description_matches_title_only (toLowerCase : String → String) (s : AppState)
    (task : Task) (search : String) (status priority : Option String)
    (hdesc : task.description = none) (hs : search ≠ "")
    (htitle : includes (toLowerCase task.title) (toLowerCase search) = false) :
    task ∉ (applyFilters toLowerCase
      { s with filters := ⟨some search, status, priority⟩ }).filteredTasks := by
  intro hmem
  have h1 := (filtered_sublist_search toLowerCase s.tasks search hs status priority).subset hmem
  have h2 := (List.mem_filter.mp h1).2
  rw [htitle, hdesc] at h2
  exact Bool.false_ne_true h2

theorem C4_no_description_matches_title_only_witness :
    buyMilk.description = none ∧ "report" ≠ "" ∧
    includes (asciiLower buyMilk.title) (asciiLower "report") = false ∧
    buyMilk ∉ (applyFilters asciiLower
      { stateSearchReport with filters := ⟨some "report", none, none⟩ }).filteredTasks :=
  ⟨rfl, by decide, by decide,
    C4_no_description_matches_title_only asciiLower stateSearchReport buyMilk "report" none none
      rfl (by decide) (by decide)⟩

/-! ## The task store -/

/-- C5: for every state, when `loadTasks` runs and the fetch fails, the task collection
afterwards is the collection before the call, the error flag holds the message
"Failed to load tasks. Please try again.", and `loading` is false. -/
theorem C5_loadTasks_failure_keeps_last_known_good (s : AppState) (cause : String) :
    (loadTasks (.error cause) s).1.tasks = s.tasks ∧
    (loadTasks (.error cause) s).1.error = some "Failed to load tasks. Please try again." ∧
    (loadTasks (.error cause) s).1.error ≠ none ∧
    (loadTasks (.error cause) s).1.loading = false :=
  ⟨rfl, rfl, by simp [loadTasks], rfl⟩

/-- The requests of `loadTasks` begin with the fetch, whatever its outcome. -/
theorem getTasks_mem_loadTasks (fetch : Except String GetTasksResponse) (s : AppState) :
    Effect.getTasks ∈ (loadTasks fetch s).2 := by
  rcases fetch with cause | response <;> simp [loadTasks]

/-! ## Mutations -/

/-- C6 (as amended): for each of the create, update and delete handlers, once the operation
has been sent a full refresh follows when the operation succeeded (the requests are the
operation followed by those of `loadTasks`, and the store is the one `loadTasks` leaves);
when the operation failed no refresh is triggered, the state is unchanged and an alert is
shown. -/
theorem C6_refresh_follows_successful_mutation (taskData : TaskData) (taskId : Nat)
    (editing : Task) (cause : String) (fetch : Except String GetTasksResponse)
    (s : AppState) :
    -- the operation succeeded
    ((handleCreateTask taskData (.ok ()) fetch s).2
        = .createTask taskData :: (loadTasks fetch s).2 ∧
      (handleCreateTask taskData (.ok ()) fetch s).1.tasks = (loadTasks fetch s).1.tasks ∧
      Effect.getTasks ∈ (handleCreateTask taskData (.ok ()) fetch s).2) ∧
    ((handleUpdateTask taskData (.ok ()) fetch { s with editingTask := some editing }).2
        = .updateTask editing.id (.form taskData)
            :: (loadTasks fetch { s with editingTask := some editing }).2 ∧
      (handleUpdateTask taskData (.ok ()) fetch { s with editingTask := some editing }).1.tasks
        = (loadTasks fetch { s with editingTask := some editing }).1.tasks ∧
      Effect.getTasks ∈
        (handleUpdateTask taskData (.ok ()) fetch { s with editingTask := some editing }).2) ∧
    ((handleDeleteTask taskId (.ok ()) fetch s).2
        = .deleteTask taskId :: (loadTasks fetch s).2 ∧
      (handleDeleteTask taskId (.ok ()) fetch s).1.tasks = (loadTasks fetch s).1.tasks ∧
      Effect.getTasks ∈ (handleDeleteTask taskId (.ok ()) fetch s).2) ∧
    -- the operation failed
    (handleCreateTask taskData (.error cause) fetch s
        = (s, [.createTask taskData, .consoleError "Error creating task:",
               .alert "Failed to create task. Please try again."]) ∧
      Effect.getTasks ∉ (handleCreateTask taskData (.error cause) fetch s).2) ∧
    (handleUpdateTask taskData (.error cause) fetch { s with editingTask := some editing }
        = ({ s with editingTask := some editing },
           [.updateTask editing.id (.form taskData), .consoleError "Error updating task:",
            .alert "Failed to update task. Please try again."]) ∧
      Effect.getTasks ∉
        (handleUpdateTask taskData (.error cause) fetch
          { s with editingTask := some editing }).2) ∧
    (handleDeleteTask taskId (.error cause) fetch s
        = (s, [.deleteTask taskId, .consoleError "Error deleting task:",
               .alert "Failed to delete task. Please try again."]) ∧
      Effect.getTasks ∉ (handleDeleteTask taskId (.error cause) fetch s).2) := by
  refine ⟨⟨rfl, rfl, ?_⟩, ⟨rfl, rfl, ?_⟩, ⟨rfl, rfl, ?_⟩, ⟨rfl, ?_⟩, ⟨rfl, ?_⟩, ⟨rfl, ?_⟩⟩
  · exact List.mem_cons_of_mem _ (getTasks_mem_loadTasks fetch s)
  · exact List.mem_cons_of_mem _ (getTasks_mem_loadTasks fetch _)
  · exact List.mem_cons_of_mem _ (getTasks_mem_loadTasks fetch s)
  · simp [handleCreateTask]
  · simp [handleUpdateTask]
  · simp [handleDeleteTask]

/-- C6 (as stated) fails: when the operation is rejected, each of the three handlers
issues the operation and an alert, and no fetch. -/
theorem C6_no_refresh_after_failed_mutation_counterexample :
    (handleCreateTask callMomData (.error "500") fetchLoaded stateLoaded).2
      = [.createTask callMomData, .consoleError "Error creating task:",
         .alert "Failed to create task. Please try again."] ∧
    (handleUpdateTask callMomData (.error "500") fetchLoaded stateEditing).2
      = [.updateTask 1 (.form callMomData), .consoleError "Error updating task:",
         .alert "Failed to update task. Please try again."] ∧
    (handleDeleteTask 2 (.error "500") fetchLoaded stateLoaded).2
      = [.deleteTask 2, .consoleError "Error deleting task:",
         .alert "Failed to delete task. Please try again."] ∧
    Effect.getTasks ∉ (handleCreateTask callMomData (.error "500") fetchLoaded stateLoaded).2 ∧
    Effect.getTasks ∉ (handleUpdateTask callMomData (.error "500") fetchLoaded stateEditing).2 ∧
    Effect.getTasks ∉ (handleDeleteTask 2 (.error "500") fetchLoaded stateLoaded).2 := by
  decide

/-! ## The voice workflow -/

/-- C7 (as amended): `handleVoiceConfirm` does not look at the title.  For every state and
every task data whose title is the empty string, the create request carrying that data is
the first thing issued.  When the request fails the state is unchanged (a state in
Reviewing stays in Reviewing with its Voice Session), no refresh is made and an alert is
shown; when it succeeds the store is refreshed, the review surface is closed and the Voice
Session is discarded. -/
theorem C7_confirm_sends_create_even_with_empty_title (taskData : TaskData) (cause : String)
    (fetch : Except String GetTasksResponse) (s : AppState) :
    (∀ create : Except String Unit,
      (handleVoiceConfirm { taskData with title := "" } create fetch s).2.head?
        = some (.createTask { taskData with title := "" })) ∧
    handleVoiceConfirm { taskData with title := "" } (.error cause) fetch s
      = (s, [.createTask { taskData with title := "" },
             .consoleError "Error creating voice task:",
             .alert "Failed to create task. Please try again."]) ∧
    (handleVoiceConfirm { taskData with title := "" } (.ok ()) fetch s).2
      = .createTask { taskData with title := "" } :: (loadTasks fetch s).2 ∧
    (handleVoiceConfirm { taskData with title := "" } (.ok ()) fetch s).1.showVoiceReview
      = false ∧
    (handleVoiceConfirm { taskData with title := "" } (.ok ()) fetch s).1.voiceData = none ∧
    (handleVoiceConfirm { taskData with title := "" } (.ok ()) fetch s).1.tasks
      = (loadTasks fetch s).1.tasks := by
  refine ⟨?_, rfl, rfl, rfl, rfl, rfl⟩
  intro create
  rcases create with cause | u <;> rfl

/-- C7 (as stated) fails: in Reviewing, confirming task data with an empty title issues the
create request, and when the request succeeds the machine leaves Reviewing and the Voice
Session is gone. -/
theorem C7_empty_title_not_refused_counterexample :
    stateReviewing.showVoiceReview = true ∧ stateReviewing.voiceData ≠ none ∧
    emptyTitleData.title = "" ∧
    Effect.createTask emptyTitleData
      ∈ (handleVoiceConfirm emptyTitleData (.ok ()) fetchLoaded stateReviewing).2 ∧
    (handleVoiceConfirm emptyTitleData (.ok ()) fetchLoaded stateReviewing).1.showVoiceReview
      = false ∧
    (handleVoiceConfirm emptyTitleData (.ok ()) fetchLoaded stateReviewing).1.voiceData
      = none := by
  decide

/-- C8 (as amended): for every transcript and every state, when `handleVoiceTranscript`
runs and the parsing collaborator fails (the request is rejected, or it resolves without
`data`), the state is left as it was and an alert is shown: the call opens no review
surface and creates no Voice Session, and it does not close the voice-input surface, which
is open when the transcript comes from it. -/
theorem C8_parse_failure_leaves_state_unchanged (transcript cause : String) (s : AppState) :
    handleVoiceTranscript transcript (.error cause) s
      = (s, [.parseVoiceTranscript transcript, .consoleError "Error parsing transcript:",
             .alert "Failed to parse voice input. Please try again."]) ∧
    handleVoiceTranscript transcript (.ok { data := none }) s
      = (s, [.parseVoiceTranscript transcript, .consoleError "Error parsing transcript:",
             .alert "Failed to parse voice input. Please try again."]) ∧
    (handleVoiceTranscript transcript (.error cause) s).1.showVoiceInput = s.showVoiceInput ∧
    (handleVoiceTranscript transcript (.error cause) s).1.showVoiceReview
      = s.showVoiceReview ∧
    (handleVoiceTranscript transcript (.error cause) s).1.voiceData = s.voiceData :=
  ⟨rfl, rfl, rfl, rfl, rfl⟩

/-- C8 (as stated) fails: the transcript comes from the open voice-input surface, and after
the failed parse that surface is still open, so the workflow is in Capturing, not Idle. -/
theorem C8_voice_input_stays_open_counterexample :
    stateCapturing.showVoiceInput = true ∧
    (handleVoiceTranscript "remind me to call mom tomorrow" (.error "503")
      stateCapturing).1.showVoiceInput = true := by
  decide

/-- C9 (as amended): closing the voice-input surface, or cancelling the review, while a
parse is in flight does not cancel the parse.  A parse that resolves afterwards is applied:
`voiceData` becomes the transcript with its parsed candidate, `showVoiceReview` becomes
true and `showVoiceInput` false.  A parse that fails afterwards (the request is rejected, or
it resolves without `data`) leaves the state as the close or cancel left it. -/
theorem C9_late_parse_result_is_applied (s s1 : Sys) (transcript cause : String)
    (data : ParseData) (hflight : transcript ∈ s.parsing)
    (hstep : step s .closeVoiceInput = some s1 ∨ step s .voiceCancel = some s1) :
    (step s1 (.parseSettled transcript (.ok { data := some data }))).map
        (fun t => (t.app.voiceData, t.app.showVoiceReview, t.app.showVoiceInput))
      = some (some { transcript := transcript, parsed := data.parsed }, true, false) ∧
    (step s1 (.parseSettled transcript (.error cause))).map (fun t => t.app) = some s1.app ∧
    (step s1 (.parseSettled transcript (.ok { data := none }))).map (fun t => t.app)
      = some s1.app := by
  have hpar : s1.parsing = s.parsing := by
    rcases hstep with h | h
    · simp only [step] at h
      split at h
      · cases h; rfl
      · cases h
    · simp only [step] at h
      split at h
      · cases h; rfl
      · cases h
  have hmem : transcript ∈ s1.parsing := hpar ▸ hflight
  simp [step, hmem, handleVoiceTranscript.resume]

theorem C9_late_parse_result_is_applied_witness :
    "remind me to call mom tomorrow" ∈ sysParsing.parsing ∧
    (step sysParsing .closeVoiceInput
        = some { sysParsing with app := { sysParsing.app with showVoiceInput := false } } ∨
      step sysParsing .voiceCancel
        = some { sysParsing with app := { sysParsing.app with showVoiceInput := false } }) ∧
    (step { sysParsing with app := { sysParsing.app with showVoiceInput := false } }
        (.parseSettled "remind me to call mom tomorrow"
          (.ok { data := some { parsed := some callMomCandidate } }))).map
        (fun t => (t.app.voiceData, t.app.showVoiceReview, t.app.showVoiceInput))
      = some (some { transcript := "remind me to call mom tomorrow",
                     parsed := some callMomCandidate }, true, false) ∧
    (step { sysParsing with app := { sysParsing.app with showVoiceInput := false } }
        (.parseSettled "remind me to call mom tomorrow" (.error "503"))).map (fun t => t.app)
      = some { sysParsing.app with showVoiceInput := false } ∧
    (step { sysParsing with app := { sysParsing.app with showVoiceInput := false } }
        (.parseSettled "remind me to call mom tomorrow" (.ok { data := none }))).map
        (fun t => t.app)
      = some { sysParsing.app with showVoiceInput := false } :=
  ⟨by decide, Or.inl rfl,
    C9_late_parse_result_is_applied sysParsing
      { sysParsing with app := { sysParsing.app with showVoiceInput := false } }
      "remind me to call mom tomorrow" "503" { parsed := some callMomCandidate }
      (by decide) (Or.inl rfl)⟩

/-- C9 (as stated) fails: after the modal is closed with a parse in flight there is no
Voice Session and no review; once the parse resolves the session is set and the review is
shown.  The same happens when the review is cancelled with a second parse in flight. -/
theorem C9_late_parse_result_counterexample :
    (run Sys.init (closeThenResolve.take 3)).map
        (fun t => (t.parsing, t.app.showVoiceInput, t.app.voiceData, t.app.showVoiceReview))
      = some (["remind me to call mom tomorrow"], false, none, false) ∧
    (run Sys.init closeThenResolve).map (fun t => (t.app.voiceData, t.app.showVoiceReview))
      = some (some { transcript := "remind me to call mom tomorrow",
                     parsed := some callMomCandidate }, true) ∧
    (run Sys.init (cancelThenResolve.take 5)).map
        (fun t => (t.parsing, t.app.showVoiceInput, t.app.voiceData, t.app.showVoiceReview))
      = some (["remind me to call mom tomorrow"], false, none, false) ∧
    (run Sys.init cancelThenResolve).map (fun t => (t.app.voiceData, t.app.showVoiceReview))
      = some (some { transcript := "remind me to call mom tomorrow",
                     parsed := some callMomCandidate }, true) := by
  decide

/-! ## Moving a task -/

/-- The method `find` returns the first element that passes the test. -/
theorem find_first (taskId : Nat) (pre post : List Task) (task : Task)
    (hpre : ∀ t ∈ pre, t.id ≠ taskId) (hid : task.id = taskId) :
    (pre ++ task :: post).find? (fun t => decide (t.id = taskId)) = some task := by
  induction pre with
  | nil => simp [hid]
  | cons a l ih =>
    have ha : a.id ≠ taskId := hpre a (List.mem_cons_self a l)
    have hl : ∀ t ∈ l, t.id ≠ taskId := fun t ht => hpre t (List.mem_cons_of_mem a ht)
    simp [ha, ih hl]

/-- The method `find` returns nothing when no element passes the test. -/
theorem find_none (taskId : Nat) (tasks : List Task) (h : ∀ t ∈ tasks, t.id ≠ taskId) :
    tasks.find? (fun t => decide (t.id = taskId)) = none := by
  simp only [List.find?_eq_none, decide_eq_true_eq]
  exact h

/-- C10: `handleTaskMove` sends an update only if some task in the store has the id.  When
`task` is the first task in the store with the id, the update is the first request, it is
addressed to that id, and its payload is `task` with the status replaced by the new status
and every other field unchanged; no other update is sent.  When no task in the store has
the id, nothing is requested (no update, no refresh) and the state is unchanged. -/
theorem C10_handleTaskMove_payload (taskId : Nat) (newStatus : String)
    (update : Except String Unit) (fetch : Except String GetTasksResponse) (s : AppState) :
    (∀ id payload, Effect.updateTask id payload ∈ (handleTaskMove taskId newStatus update fetch s).2 →
      ∃ t ∈ s.tasks, t.id = taskId) ∧
    (∀ (pre post : List Task) (task : Task),
      s.tasks = pre ++ task :: post → (∀ t ∈ pre, t.id ≠ taskId) → task.id = taskId →
        (handleTaskMove taskId newStatus update fetch s).2.head?
          = some (.updateTask taskId (.task
              { id := task.id, title := task.title, description := task.description,
                priority := task.priority, status := newStatus, due_date := task.due_date,
                created_at := task.created_at, updated_at := task.updated_at })) ∧
        (∀ id payload,
          Effect.updateTask id payload ∈ (handleTaskMove taskId newStatus update fetch s).2 →
            id = taskId ∧ payload = .task { task with status := newStatus })) ∧
    ((∀ t ∈ s.tasks, t.id ≠ taskId) →
      handleTaskMove taskId newStatus update fetch s = (s, [])) := by
  refine ⟨?_, ?_, ?_⟩
  · intro id payload hmem
    cases hfind : s.tasks.find? (fun t => decide (t.id = taskId)) with
    | none => simp [handleTaskMove, hfind] at hmem
    | some task =>
      refine ⟨task, List.mem_of_find?_eq_some hfind, ?_⟩
      simpa using List.find?_some hfind
  · intro pre post task hsplit hpre hid
    have hfind := find_first taskId pre post task hpre hid
    rw [← hsplit] at hfind
    constructor
    · rcases update with cause | u <;> simp [handleTaskMove, hfind]
    · intro id payload hmem
      rcases update with cause | u <;> rcases fetch with cause2 | response <;>
        simpa [handleTaskMove, hfind, loadTasks] using hmem
  · intro hnone
    simp [handleTaskMove, find_none taskId s.tasks hnone]

theorem C10_handleTaskMove_payload_witness :
    (handleTaskMove 1 "done" (.ok ()) fetchLoaded stateDuplicateId).2.head?
      = some (.updateTask 1 (.task
          { id := 1, title := "Write report", description := none, priority := "high",
            status := "done", due_date := none, created_at := "", updated_at := "" })) ∧
    handleTaskMove 7 "done" (.ok ()) fetchLoaded stateDuplicateId = (stateDuplicateId, []) :=
  ⟨((C10_handleTaskMove_payload 1 "done" (.ok ()) fetchLoaded stateDuplicateId).2.1
      [buyMilk] [{ buyMilk with id := 1 }] writeReport rfl (by decide) rfl).1,
    (C10_handleTaskMove_payload 7 "done" (.ok ()) fetchLoaded stateDuplicateId).2.2
      (by decide)⟩

end VoiceFlow
